import Mathlib

/-!
# Verification of the `cpp_visualizer` client library

Shallow embedding of `src/integration/cpp_visualizer_client.cpp` and
`src/integration/cpp_visualizer_client.hpp` (namespace `cpp_visualizer`).

Modelling conventions:
* The HTTP transport is the external primitive of the spec: an exchange either
  fails (`none`) or yields a response body text (`some body`).  `makeRequest`
  collapses a transport failure to the empty string `""` (lines 138-183 of the
  `.cpp` file), which we embed as `makeRequest_result`.
* The JSON library (nlohmann) is an external collaborator.  Its values are
  embedded as the inductive `Json`; its object storage is an ordered
  `std::map`, embedded as key-sorted association lists built by `mapInsert`.
  `json::parse` is embedded by its outcome, an `Option Json` (`none` = parse
  error, which includes the empty body).  `json::dump` is embedded by
  `Json.dump`.
* `std::string::find(needle) != npos` is embedded as `strContains`.
* Exceptions are made explicit with `Except CppError` in the `_try` functions;
  the `_caught` functions embed the `try`/`catch` blocks of the source.
-/

namespace CppVisualizer

/-- Embedded JSON values (nlohmann::json).  Numbers are restricted to the
integers, which is the only numeric payload the client reads or writes. -/
inductive Json where
  | null : Json
  | bool : Bool → Json
  | num : Int → Json
  | str : String → Json
  | arr : List Json → Json
  | obj : List (String × Json) → Json

/-- Test `startsWithChars pat text` : `pat` is an initial segment of `text`. -/
def startsWithChars : List Char → List Char → Bool
  | [], _ => true
  | _ :: _, [] => false
  | p :: ps, c :: cs => p == c && startsWithChars ps cs

/-- Test `containsChars text pat` : `pat` occurs contiguously somewhere in `text`.
Embeds `std::string::find(pat) != std::string::npos`. -/
def containsChars : List Char → List Char → Bool
  | [], pat => pat.isEmpty
  | c :: cs, pat => startsWithChars pat (c :: cs) || containsChars cs pat

/-- Here `strContains hay needle` embeds `hay.find(needle) != std::string::npos`. -/
def strContains (hay needle : String) : Bool :=
  containsChars hay.toList needle.toList

/-- Association lookup in an embedded JSON object member list. -/
def lookupField : List (String × Json) → String → Option Json
  | [], _ => none
  | (k, v) :: rest, key => if k == key then some v else lookupField rest key

/-- Field read: `j.getField key` embeds `j.contains(key)` followed by `j[key]`:
`some v` when `j` is an object with member `key` (value `v`), `none`
otherwise (nlohmann `contains` returns false on non-objects). -/
def Json.getField : Json → String → Option Json
  | Json.obj ms, key => lookupField ms key
  | _, _ => none

/-- Lexicographic order on character lists, by code point. -/
def charListLt : List Char → List Char → Bool
  | [], [] => false
  | [], _ :: _ => true
  | _ :: _, [] => false
  | c :: cs, d :: ds => c.toNat < d.toNat || (c == d && charListLt cs ds)

/-- Lexicographic string comparison, embedding `std::string::operator<`
(the key order of `std::map<std::string, json>`). -/
def strLt (a b : String) : Bool :=
  charListLt a.toList b.toList

/-- Key-ordered insertion, embedding `std::map<std::string, json>` insertion
(`operator[]=` replaces an existing key). -/
def mapInsert (k : String) (v : Json) : List (String × Json) → List (String × Json)
  | [] => [(k, v)]
  | (k', v') :: rest =>
    if strLt k k' then (k, v) :: (k', v') :: rest
    else if k == k' then (k, v) :: rest
    else (k', v') :: mapInsert k v rest

/-- Build the ordered map holding the entries of a `std::map` given as an
insertion list. -/
def sortMap (l : List (String × Json)) : List (String × Json) :=
  l.foldl (fun acc kv => mapInsert kv.1 kv.2 acc) []

/-- JSON string escaping as performed by nlohmann `dump`. -/
def escapeChar (c : Char) : String :=
  if c == '"' then "\\\""
  else if c == '\\' then "\\\\"
  else if c == '\n' then "\\n"
  else if c == '\t' then "\\t"
  else if c == '\r' then "\\r"
  else if c == '\x08' then "\\b"
  else if c == '\x0c' then "\\f"
  else String.singleton c

/-- Escape a whole string for JSON output. -/
def escapeString (s : String) : String :=
  String.join (s.toList.map escapeChar)

mutual
/-- Serialization: `Json.dump` embeds nlohmann `dump()`: the canonical compact serialization
of a JSON value (object members already key-ordered by construction). -/
def Json.dump : Json → String
  | Json.null => "null"
  | Json.bool b => if b then "true" else "false"
  | Json.num n => toString n
  | Json.str s => "\"" ++ escapeString s ++ "\""
  | Json.arr xs => "[" ++ dumpElems xs ++ "]"
  | Json.obj ms => "\x7b" ++ dumpMembers ms ++ "\x7d"

/-- Comma-separated serialization of array elements. -/
def dumpElems : List Json → String
  | [] => ""
  | [x] => Json.dump x
  | x :: y :: rest => Json.dump x ++ "," ++ dumpElems (y :: rest)

/-- Comma-separated serialization of object members. -/
def dumpMembers : List (String × Json) → String
  | [] => ""
  | [(k, v)] => "\"" ++ escapeString k ++ "\":" ++ Json.dump v
  | (k, v) :: m :: rest =>
    "\"" ++ escapeString k ++ "\":" ++ Json.dump v ++ "," ++ dumpMembers (m :: rest)
end

/-- Outcome of one transport exchange: `none` is a transport failure,
`some body` is the response text the transport returned. -/
abbrev TransportOutcome := Option String

/-- Embeds `makeRequest` (cpp lines 138-183): a transport failure (or missing curl
handle) collapses to the empty string; otherwise the response body is
returned unchanged. -/
def makeRequest_result (t : TransportOutcome) : String :=
  t.getD ""

/-- Embeds the `createStructure` return value (cpp lines 26-39):
`!response.empty() && response.find("\"id\"") != npos`. -/
def createStructure_result (response : String) : Bool :=
  !response.isEmpty && strContains response "\"id\""

/-- Embeds `static_cast<int>` applied to the stored (64-bit) JSON integer:
the unchecked narrowing nlohmann performs when `return result["node"]["id"];`
converts to the C++ `int` return type.  Two's-complement wraparound into
the interval from `-2^31` to `2^31 - 1`. -/
def toCppInt (n : Int) : Int :=
  (n + 2147483648) % 4294967296 - 2147483648

/-- Embeds the `addNode` return value (cpp lines 41-67), as a function of the parse
outcome of the response text: on parse failure (`none`) the catch block
yields `-1`; otherwise the nested `node`/`id` field is read, a non-integer
there raises a type error that the same catch block turns into `-1`, and a
missing field falls through to `return -1`.  A stored integer is narrowed
to the `int` return type by `toCppInt` (unchecked `static_cast`). -/
def addNode_result (parsed : Option Json) : Int :=
  match parsed with
  | none => -1
  | some result =>
    match result.getField "node" with
    | none => -1
    | some node =>
      match node.getField "id" with
      | some (Json.num n) => toCppInt n
      | _ => -1

/-- Embeds the `removeNode` return value (cpp lines 69-73):
`!response.empty() && response.find("error") == npos`. -/
def removeNode_result (response : String) : Bool :=
  !response.isEmpty && !(strContains response "error")

/-- Embeds the `updateNode` return value (cpp lines 75-87): same classification as
`removeNode`. -/
def updateNode_result (response : String) : Bool :=
  !response.isEmpty && !(strContains response "error")

/-- Embeds the `getStructure` return value (cpp lines 89-99): the parsed value, or the
neutral `json{}` (null) when parsing failed. -/
def getStructure_result (parsed : Option Json) : Json :=
  parsed.getD Json.null

/-- Embeds the `getAllStructures` return value (cpp lines 101-114): the parsed array's
elements, or `{}` (empty vector) when parsing failed or the value is not an
array. -/
def getAllStructures_result (parsed : Option Json) : List Json :=
  match parsed with
  | some (Json.arr xs) => xs
  | _ => []

/-- Embeds the `getMatrix` return value (cpp lines 116-125): the parsed value, or the
neutral `json{}` (null) on parse failure. -/
def getMatrix_result (parsed : Option Json) : Json :=
  parsed.getD Json.null

/-- Embeds the `deleteStructure` return value (cpp lines 127-131): same classification
as `removeNode`. -/
def deleteStructure_result (response : String) : Bool :=
  !response.isEmpty && !(strContains response "error")

/-- Embeds the `isConnected` return value (cpp lines 133-136): `!response.empty()`. -/
def isConnected_result (response : String) : Bool :=
  !response.isEmpty

/-- Request body of `addNode` (cpp lines 45-52): `value` and `metadata`
always present, `index` present exactly when `index >= 0`. -/
def addNode_body (value : Json) (index : Int) (metadata : List (String × Json)) : Json :=
  let base := mapInsert "value" value (mapInsert "metadata" (Json.obj (sortMap metadata)) [])
  Json.obj (if index ≥ 0 then mapInsert "index" (Json.num index) base else base)

/-- Request body of `updateNode` (cpp lines 79-82): `value` and `metadata`,
always both present. -/
def updateNode_body (value : Json) (metadata : List (String × Json)) : Json :=
  Json.obj (mapInsert "value" value (mapInsert "metadata" (Json.obj (sortMap metadata)) []))

/-- Request body of `createStructure` (cpp lines 30-35). -/
def createStructure_body (name type : String) (depth initial_size : Int) : Json :=
  Json.obj (mapInsert "name" (Json.str name)
    (mapInsert "type" (Json.str type)
      (mapInsert "depth" (Json.num depth)
        (mapInsert "initialSize" (Json.num initial_size) []))))

/-- Exceptions that can arise inside the client's bodies: nlohmann
`parse_error` (thrown by `json::parse`) and `type_error` (thrown by the
implicit conversion `int <- json`). -/
inductive CppError where
  | parseError : CppError
  | typeError : CppError

/-- Exception-explicit embedding of `json::parse(response)`: a response that
does not decode (including the empty body) throws `parse_error`. -/
def json_parse_try (parsed : Option Json) : Except CppError Json :=
  match parsed with
  | none => Except.error CppError.parseError
  | some j => Except.ok j

/-- Exception-explicit embedding of the `addNode` body (cpp lines 57-66):
the `try` block parses, reads `node`/`id`, and converts to `int` (the
unchecked narrowing `toCppInt`, which does not throw); a missing field
falls through to `return -1` without throwing. -/
def addNode_try (parsed : Option Json) : Except CppError Int := do
  let result ← json_parse_try parsed
  match result.getField "node" with
  | none => Except.ok (-1)
  | some node =>
    match node.getField "id" with
    | some (Json.num n) => Except.ok (toCppInt n)
    | some _ => Except.error CppError.typeError
    | none => Except.ok (-1)

/-- Embeds `addNode` with its `catch (const std::exception&)` handler: every
exception is absorbed and the function returns `-1`. -/
def addNode_caught (parsed : Option Json) : Except CppError Int :=
  match addNode_try parsed with
  | Except.ok v => Except.ok v
  | Except.error _ => Except.ok (-1)

/-- Exception-explicit embedding of the `getStructure` body (cpp line 94). -/
def getStructure_try (parsed : Option Json) : Except CppError Json :=
  json_parse_try parsed

/-- Embeds `getStructure` with its handler: a parse failure is absorbed and
the neutral `json{}` is returned. -/
def getStructure_caught (parsed : Option Json) : Except CppError Json :=
  match getStructure_try parsed with
  | Except.ok j => Except.ok j
  | Except.error _ => Except.ok Json.null

/-- Exception-explicit embedding of the `getAllStructures` body (cpp lines
104-113): parse, return the elements when the value is an array, otherwise
fall through to `return \x7b\x7d`. -/
def getAllStructures_try (parsed : Option Json) : Except CppError (List Json) := do
  let result ← json_parse_try parsed
  match result with
  | Json.arr xs => Except.ok xs
  | _ => Except.ok []

/-- Embeds `getAllStructures` with its handler: a parse failure is absorbed
and the empty vector is returned. -/
def getAllStructures_caught (parsed : Option Json) : Except CppError (List Json) :=
  match getAllStructures_try parsed with
  | Except.ok xs => Except.ok xs
  | Except.error _ => Except.ok []

/-- Exception-explicit embedding of the `getMatrix` body (cpp line 120). -/
def getMatrix_try (parsed : Option Json) : Except CppError Json :=
  json_parse_try parsed

/-- Embeds `getMatrix` with its handler (cpp lines 121-124). -/
def getMatrix_caught (parsed : Option Json) : Except CppError Json :=
  match getMatrix_try parsed with
  | Except.ok j => Except.ok j
  | Except.error _ => Except.ok Json.null

/-- Exception-explicit embedding of the `createStructure` body: it performs
no throwing operation (substring search only), so it always returns. -/
def createStructure_try (response : String) : Except CppError Bool :=
  Except.ok (!response.isEmpty && strContains response "\"id\"")

/-- Exception-explicit embedding of the `removeNode` body: no throwing
operation occurs. -/
def removeNode_try (response : String) : Except CppError Bool :=
  Except.ok (!response.isEmpty && !(strContains response "error"))

/-- Exception-explicit embedding of the `updateNode` body: no throwing
operation occurs after the exchange. -/
def updateNode_try (response : String) : Except CppError Bool :=
  Except.ok (!response.isEmpty && !(strContains response "error"))

/-- Exception-explicit embedding of the `deleteStructure` body. -/
def deleteStructure_try (response : String) : Except CppError Bool :=
  Except.ok (!response.isEmpty && !(strContains response "error"))

/-- Exception-explicit embedding of the `isConnected` body. -/
def isConnected_try (response : String) : Except CppError Bool :=
  Except.ok (!response.isEmpty)

/-- The state a `VisualizerClient` retains between calls (cpp lines
116-118): the base address and the verbosity flag.  The curl handle is the
transport, abstracted by `TransportOutcome`. -/
structure ClientState where
  base_url : String
  verbose : Bool

/-- Full embedding of `VisualizerClient::createStructure`: builds the
request body and URL, performs the exchange (whose outcome `t` is given),
classifies the response, and leaves the client state unchanged. -/
def VisualizerClient.createStructure (st : ClientState) (name type : String)
    (depth initial_size : Int) (t : TransportOutcome) : Bool × ClientState :=
  let _body := Json.dump (createStructure_body name type depth initial_size)
  let _url := st.base_url ++ "/api/live/structure"
  (createStructure_result (makeRequest_result t), st)

/-- Full embedding of `VisualizerClient::addNode`; `parsed` is the decode
outcome of the response text of the one exchange the call performs. -/
def VisualizerClient.addNode (st : ClientState) (structure_name : String)
    (value : Json) (index : Int) (metadata : List (String × Json))
    (parsed : Option Json) : Int × ClientState :=
  let _body := Json.dump (addNode_body value index metadata)
  let _url := st.base_url ++ "/api/live/structure/" ++ structure_name ++ "/node"
  (addNode_result parsed, st)

/-- Full embedding of `VisualizerClient::removeNode`. -/
def VisualizerClient.removeNode (st : ClientState) (structure_name : String)
    (node_id : Int) (t : TransportOutcome) : Bool × ClientState :=
  let _url := st.base_url ++ "/api/live/structure/" ++ structure_name ++ "/node/"
      ++ toString node_id
  (removeNode_result (makeRequest_result t), st)

/-- Full embedding of `VisualizerClient::updateNode`. -/
def VisualizerClient.updateNode (st : ClientState) (structure_name : String)
    (node_id : Int) (value : Json) (metadata : List (String × Json))
    (t : TransportOutcome) : Bool × ClientState :=
  let _body := Json.dump (updateNode_body value metadata)
  let _url := st.base_url ++ "/api/live/structure/" ++ structure_name ++ "/node/"
      ++ toString node_id
  (updateNode_result (makeRequest_result t), st)

/-- Full embedding of `VisualizerClient::getStructure`. -/
def VisualizerClient.getStructure (st : ClientState) (structure_name : String)
    (parsed : Option Json) : Json × ClientState :=
  let _url := st.base_url ++ "/api/live/structure/" ++ structure_name
  (getStructure_result parsed, st)

/-- Full embedding of `VisualizerClient::getAllStructures`. -/
def VisualizerClient.getAllStructures (st : ClientState)
    (parsed : Option Json) : List Json × ClientState :=
  let _url := st.base_url ++ "/api/live/structures"
  (getAllStructures_result parsed, st)

/-- Full embedding of `VisualizerClient::getMatrix`. -/
def VisualizerClient.getMatrix (st : ClientState)
    (parsed : Option Json) : Json × ClientState :=
  let _url := st.base_url ++ "/api/live/matrix"
  (getMatrix_result parsed, st)

/-- Full embedding of `VisualizerClient::deleteStructure`. -/
def VisualizerClient.deleteStructure (st : ClientState) (structure_name : String)
    (t : TransportOutcome) : Bool × ClientState :=
  let _url := st.base_url ++ "/api/live/structure/" ++ structure_name
  (deleteStructure_result (makeRequest_result t), st)

/-- Full embedding of `VisualizerClient::isConnected`. -/
def VisualizerClient.isConnected (st : ClientState)
    (t : TransportOutcome) : Bool × ClientState :=
  let _url := st.base_url ++ "/api/live/structures"
  (isConnected_result (makeRequest_result t), st)

/-- One outgoing client call, for tracing the calls a `ManagedStructure`
issues on the `VisualizerClient` it wraps. -/
inductive ClientCall where
  | createStructureCall (name type : String) (depth : Int)
  | addNodeCall (structure_name : String) (value : Json) (index : Int)
  | removeNodeCall (structure_name : String) (node_id : Int)
  | updateNodeCall (structure_name : String) (node_id : Int) (value : Json)
  | deleteStructureCall (name : String)

/-- Recognizes a `deleteStructure` call bound to the given name. -/
def isDeleteStructureFor (name : String) : ClientCall → Bool
  | ClientCall.deleteStructureCall n => n == name
  | _ => false

/-- The state a `ManagedStructure` retains (hpp lines 167-169): only the
bound name (and the client reference).  No record of the constructor's
create success is kept. -/
structure ManagedStructureState where
  name : String

/-- Embeds the `ManagedStructure` constructor (hpp lines 134-140): it issues
one `createStructure` call (with the default initial size 0) and discards
its boolean result. -/
def ManagedStructure.construct (st : ClientState) (name type : String)
    (depth : Int) (t : TransportOutcome) : ManagedStructureState × List ClientCall :=
  let _ok := (VisualizerClient.createStructure st name type depth 0 t).1
  ({ name := name }, [ClientCall.createStructureCall name type depth])

/-- Embeds the `ManagedStructure` destructor (hpp lines 142-144): it issues
one `deleteStructure` call for the bound name, unconditionally. -/
def ManagedStructure.destruct (ms : ManagedStructureState) : List ClientCall :=
  [ClientCall.deleteStructureCall ms.name]

/-- Spec-side notion, for refinement comparison only (from the spec's words
"response payload contains an identifier field"): the decoded response is an
object with a top-level `id` member. -/
def spec_hasIdentifierField (j : Json) : Bool :=
  match j with
  | Json.obj ms => ms.any (fun kv => kv.1 == "id")
  | _ => false

/-- C1 (counterexample): the claim "removeNode returns false iff the
response text contains the substring `error`" fails at the empty response:
`removeNode` returns false there although the empty text does not contain
`error`. -/
theorem c1_counterexample :
    ¬ (removeNode_result "" = false ↔ strContains "" "error" = true) := by
  decide

/-- C1 (amended): `removeNode`, `updateNode` and `deleteStructure` return
false iff the response text is empty or contains the literal substring
`error`; given the same response, calling the same operation twice with the
same inputs (threading the client state through) yields the same boolean. -/
theorem c1_error_substring_classification :
    (∀ r : String,
        (removeNode_result r = false ↔ (r.isEmpty || strContains r "error") = true)
      ∧ (updateNode_result r = false ↔ (r.isEmpty || strContains r "error") = true)
      ∧ (deleteStructure_result r = false ↔ (r.isEmpty || strContains r "error") = true))
    ∧ (∀ (st : ClientState) (sname : String) (nid : Int) (t : TransportOutcome),
        (VisualizerClient.removeNode st sname nid t).1
          = (VisualizerClient.removeNode
              (VisualizerClient.removeNode st sname nid t).2 sname nid t).1)
    ∧ (∀ (st : ClientState) (sname : String) (nid : Int) (v : Json)
        (md : List (String × Json)) (t : TransportOutcome),
        (VisualizerClient.updateNode st sname nid v md t).1
          = (VisualizerClient.updateNode
              (VisualizerClient.updateNode st sname nid v md t).2 sname nid v md t).1)
    ∧ (∀ (st : ClientState) (sname : String) (t : TransportOutcome),
        (VisualizerClient.deleteStructure st sname t).1
          = (VisualizerClient.deleteStructure
              (VisualizerClient.deleteStructure st sname t).2 sname t).1) := by
  have h : ∀ a b : Bool, ((!a && !b) = false ↔ (a || b) = true) := by decide
  exact ⟨fun r => ⟨h _ _, h _ _, h _ _⟩,
    fun _ _ _ _ => rfl, fun _ _ _ _ _ _ => rfl, fun _ _ _ => rfl⟩

/-- C2 (counterexample): the claim "createStructure returns true iff the
response contains an identifier field" fails: the serialization of the
object with single member `x` bound to the string `id` contains no
identifier field, yet `createStructure` classifies it as success, because
the four-character text `"id"` occurs inside the member's string value. -/
theorem c2_counterexample :
    ¬ (createStructure_result (Json.dump (Json.obj [("x", Json.str "id")])) = true
        ↔ spec_hasIdentifierField (Json.obj [("x", Json.str "id")]) = true) := by
  decide

/-- C2 (amended): `createStructure` returns true iff the response text is
non-empty and contains the literal substring `"id"` (quote, i, d, quote);
in particular it returns false on the empty response, and false on a
transport failure. -/
theorem c2_createStructure_classification :
    (∀ r : String,
        createStructure_result r = true
          ↔ (r.isEmpty = false ∧ strContains r "\"id\"" = true))
    ∧ createStructure_result "" = false
    ∧ (∀ (st : ClientState) (name type : String) (depth isize : Int),
        (VisualizerClient.createStructure st name type depth isize none).1 = false) := by
  refine ⟨fun r => ?_, rfl, fun _ _ _ _ _ => rfl⟩
  simp [createStructure_result, Bool.and_eq_true, Bool.not_eq_true']

/-- C3 (counterexample): the claim "addNode returns exactly the integer
stored in the nested `node`/`id` field" fails for an id outside the range
of the C++ `int` return type: for stored id 5000000000 the unchecked
`static_cast<int>` narrowing wraps the value to 705032704. -/
theorem c3_counterexample :
    ¬ (addNode_result (some (Json.obj [("node", Json.obj [("id", Json.num 5000000000)])]))
        = 5000000000) := by
  decide

/-- C3 (amended): `addNode` returns the integer stored in the response's
nested `node`/`id` field narrowed to the 32-bit `int` return type by
two's-complement wraparound; in particular it returns exactly the stored
integer whenever that integer is within `int` range (from `-2^31` to
`2^31 - 1`), and returns the sentinel `-1` when the response lacks the
`node` member, lacks the nested `id` member, or fails to decode as JSON
(which includes the empty body of a transport failure). -/
theorem c3_addNode_identifier :
    (∀ (parsed : Option Json) (j node : Json) (n : Int),
        parsed = some j → j.getField "node" = some node →
        node.getField "id" = some (Json.num n) → addNode_result parsed = toCppInt n)
    ∧ (∀ (parsed : Option Json) (j node : Json) (n : Int),
        parsed = some j → j.getField "node" = some node →
        node.getField "id" = some (Json.num n) →
        -2147483648 ≤ n → n < 2147483648 → addNode_result parsed = n)
    ∧ (∀ (parsed : Option Json) (j : Json),
        parsed = some j → j.getField "node" = none → addNode_result parsed = -1)
    ∧ (∀ (parsed : Option Json) (j node : Json),
        parsed = some j → j.getField "node" = some node →
        node.getField "id" = none → addNode_result parsed = -1)
    ∧ addNode_result none = -1 := by
  refine ⟨?_, ?_, ?_, ?_, rfl⟩
  · intro parsed j node n hp hn hid
    subst hp
    simp [addNode_result, hn, hid]
  · intro parsed j node n hp hn hid hlo hhi
    subst hp
    simp only [addNode_result, hn, hid]
    unfold toCppInt
    omega
  · intro parsed j hp hn
    subst hp
    simp [addNode_result, hn]
  · intro parsed j node hp hn hid
    subst hp
    simp [addNode_result, hn, hid]

/-- C3 witness: a response decoding to an object whose `node` member holds
`id = 7` (in `int` range) makes `addNode` return exactly 7, and a
non-decodable response yields the sentinel. -/
theorem c3_addNode_identifier_witness :
    addNode_result (some (Json.obj [("node", Json.obj [("id", Json.num 7)])])) = 7
    ∧ addNode_result none = -1 :=
  ⟨c3_addNode_identifier.2.1
      (some (Json.obj [("node", Json.obj [("id", Json.num 7)])]))
      (Json.obj [("node", Json.obj [("id", Json.num 7)])])
      (Json.obj [("id", Json.num 7)]) 7 rfl rfl rfl (by decide) (by decide),
    c3_addNode_identifier.2.2.2.2⟩

/-- C4: destroying a `ManagedStructure` issues exactly one `deleteStructure`
call for its bound name; the destructor's calls are a function of the bound
name alone, so they are unchanged even when the constructor's
`createStructure` exchange failed (transport outcome `t` vs `t'`), the
success boolean being discarded by the constructor. -/
theorem c4_managed_structure_single_delete :
    ∀ (st : ClientState) (name type : String) (depth : Int) (t t' : TransportOutcome),
      ManagedStructure.destruct (ManagedStructure.construct st name type depth t).1
          = [ClientCall.deleteStructureCall name]
      ∧ (ManagedStructure.destruct
            (ManagedStructure.construct st name type depth t).1).countP
            (isDeleteStructureFor name) = 1
      ∧ ManagedStructure.destruct (ManagedStructure.construct st name type depth t).1
          = ManagedStructure.destruct (ManagedStructure.construct st name type depth t').1 := by
  intro st name type depth t t'
  refine ⟨rfl, ?_, rfl⟩
  simp [ManagedStructure.destruct, ManagedStructure.construct, isDeleteStructureFor,
    List.countP_cons, List.countP_nil]

/-- C5: no public operation lets an exception cross the library boundary:
for every decode outcome and response text, each operation's
exception-explicit embedding ends in `Except.ok` carrying exactly the value
the public operation returns. -/
theorem c5_no_throw :
    ∀ (parsed : Option Json) (r : String),
      addNode_caught parsed = Except.ok (addNode_result parsed)
      ∧ getStructure_caught parsed = Except.ok (getStructure_result parsed)
      ∧ getAllStructures_caught parsed = Except.ok (getAllStructures_result parsed)
      ∧ getMatrix_caught parsed = Except.ok (getMatrix_result parsed)
      ∧ createStructure_try r = Except.ok (createStructure_result r)
      ∧ removeNode_try r = Except.ok (removeNode_result r)
      ∧ updateNode_try r = Except.ok (updateNode_result r)
      ∧ deleteStructure_try r = Except.ok (deleteStructure_result r)
      ∧ isConnected_try r = Except.ok (isConnected_result r) := by
  intro parsed r
  refine ⟨?_, ?_, ?_, ?_, rfl, rfl, rfl, rfl, rfl⟩
  · cases parsed with
    | none => rfl
    | some j =>
      cases hn : Json.getField j "node" with
      | none =>
        simp [addNode_caught, addNode_try, addNode_result, json_parse_try, Bind.bind, Except.bind, hn]
      | some node =>
        cases hid : Json.getField node "id" with
        | none =>
          simp [addNode_caught, addNode_try, addNode_result, json_parse_try, Bind.bind, Except.bind, hn, hid]
        | some x =>
          cases x <;>
            simp [addNode_caught, addNode_try, addNode_result, json_parse_try, Bind.bind, Except.bind, hn, hid]
  · cases parsed <;> rfl
  · cases parsed with
    | none => rfl
    | some j => cases j <;> rfl
  · cases parsed <;> rfl

/-- C6: `isConnected` returns true iff the structures-listing exchange
yields a non-empty response body (no decoding of the body takes place),
and it returns false on a transport failure. -/
theorem c6_isConnected_liveness :
    (∀ (st : ClientState) (t : TransportOutcome),
        ((VisualizerClient.isConnected st t).1 = true
          ↔ (makeRequest_result t).isEmpty = false))
    ∧ (∀ st : ClientState, (VisualizerClient.isConnected st none).1 = false) := by
  refine ⟨fun st t => ?_, fun st => rfl⟩
  simp [VisualizerClient.isConnected, isConnected_result, Bool.not_eq_true']

/-- C7: `getStructure` never raises (its exception-explicit embedding always
ends in `Except.ok`), returns the neutral value on a response that fails to
decode (which includes the empty body of a transport failure), and returns
the full decoded value on a decodable response. -/
theorem c7_getStructure_neutral_on_failure :
    (∀ parsed : Option Json, (getStructure_caught parsed).isOk = true)
    ∧ getStructure_result none = Json.null
    ∧ (∀ j : Json, getStructure_result (some j) = j) := by
  refine ⟨?_, rfl, fun j => rfl⟩
  intro parsed
  cases parsed <;> rfl

/-- C8: the request bodies of `addNode` and `updateNode` always carry the
`metadata` key; when the caller supplies no entries it is bound to the
explicit empty mapping, never omitted. -/
theorem c8_metadata_never_omitted :
    ∀ (v : Json) (idx : Int) (md : List (String × Json)),
      (addNode_body v idx md).getField "metadata" = some (Json.obj (sortMap md))
      ∧ (updateNode_body v md).getField "metadata" = some (Json.obj (sortMap md))
      ∧ (addNode_body v idx []).getField "metadata" = some (Json.obj [])
      ∧ (updateNode_body v []).getField "metadata" = some (Json.obj []) := by
  intro v idx md
  rcases le_or_lt 0 idx with h | h
  · have h' : idx ≥ 0 := h
    refine ⟨?_, rfl, ?_, rfl⟩
    · simp only [addNode_body]
      rw [if_pos h']
      rfl
    · simp only [addNode_body]
      rw [if_pos h']
      rfl
  · have h' : ¬ idx ≥ 0 := not_le.mpr h
    refine ⟨?_, rfl, ?_, rfl⟩
    · simp only [addNode_body]
      rw [if_neg h']
      rfl
    · simp only [addNode_body]
      rw [if_neg h']
      rfl

/-- C9: the `index` key appears in the `addNode` request body iff the caller
supplied an index (`index ≥ 0`), and is then bound to exactly the supplied
value; the `value` and `metadata` fields are never omitted. -/
theorem c9_index_field_iff_supplied :
    ∀ (v : Json) (idx : Int) (md : List (String × Json)),
      (idx ≥ 0 → (addNode_body v idx md).getField "index" = some (Json.num idx))
      ∧ (idx < 0 → (addNode_body v idx md).getField "index" = none)
      ∧ (addNode_body v idx md).getField "value" = some v
      ∧ (addNode_body v idx md).getField "metadata" = some (Json.obj (sortMap md)) := by
  intro v idx md
  refine ⟨?_, ?_, ?_, ?_⟩
  · intro h
    simp only [addNode_body]
    rw [if_pos h]
    rfl
  · intro h
    simp only [addNode_body]
    rw [if_neg (not_le.mpr h)]
    rfl
  · rcases le_or_lt 0 idx with h | h
    · have h' : idx ≥ 0 := h
      simp only [addNode_body]
      rw [if_pos h']
      rfl
    · simp only [addNode_body]
      rw [if_neg (not_le.mpr h)]
      rfl
  · rcases le_or_lt 0 idx with h | h
    · have h' : idx ≥ 0 := h
      simp only [addNode_body]
      rw [if_pos h']
      rfl
    · simp only [addNode_body]
      rw [if_neg (not_le.mpr h)]
      rfl

/-- C9 witness: with a supplied index 2 the body carries `index = 2`; with
the unsupplied sentinel `-1` the body carries no `index` key. -/
theorem c9_index_field_iff_supplied_witness :
    ((2 : Int) ≥ 0 ∧ (addNode_body (Json.num 5) 2 []).getField "index" = some (Json.num 2))
    ∧ ((-1 : Int) < 0 ∧ (addNode_body (Json.num 5) (-1) []).getField "index" = none) :=
  ⟨⟨by decide, (c9_index_field_iff_supplied (Json.num 5) 2 []).1 (by decide)⟩,
    ⟨by decide, (c9_index_field_iff_supplied (Json.num 5) (-1) []).2.1 (by decide)⟩⟩

/-- C10: every public operation's return value is a function of its call
arguments and the transport's response alone: two client states differing
in base address, verbosity, or anything retained from earlier calls produce
the same result, and no operation changes the client state. -/
theorem c10_response_determinism :
    ∀ (st₁ st₂ : ClientState) (name type sname : String)
      (depth isize idx nid : Int) (v : Json) (md : List (String × Json))
      (t : TransportOutcome) (parsed : Option Json),
      (VisualizerClient.createStructure st₁ name type depth isize t).1
          = (VisualizerClient.createStructure st₂ name type depth isize t).1
      ∧ (VisualizerClient.addNode st₁ sname v idx md parsed).1
          = (VisualizerClient.addNode st₂ sname v idx md parsed).1
      ∧ (VisualizerClient.removeNode st₁ sname nid t).1
          = (VisualizerClient.removeNode st₂ sname nid t).1
      ∧ (VisualizerClient.updateNode st₁ sname nid v md t).1
          = (VisualizerClient.updateNode st₂ sname nid v md t).1
      ∧ (VisualizerClient.getStructure st₁ sname parsed).1
          = (VisualizerClient.getStructure st₂ sname parsed).1
      ∧ (VisualizerClient.getAllStructures st₁ parsed).1
          = (VisualizerClient.getAllStructures st₂ parsed).1
      ∧ (VisualizerClient.getMatrix st₁ parsed).1
          = (VisualizerClient.getMatrix st₂ parsed).1
      ∧ (VisualizerClient.deleteStructure st₁ sname t).1
          = (VisualizerClient.deleteStructure st₂ sname t).1
      ∧ (VisualizerClient.isConnected st₁ t).1
          = (VisualizerClient.isConnected st₂ t).1
      ∧ (VisualizerClient.createStructure st₁ name type depth isize t).2 = st₁
      ∧ (VisualizerClient.addNode st₁ sname v idx md parsed).2 = st₁
      ∧ (VisualizerClient.removeNode st₁ sname nid t).2 = st₁
      ∧ (VisualizerClient.updateNode st₁ sname nid v md t).2 = st₁
      ∧ (VisualizerClient.getStructure st₁ sname parsed).2 = st₁
      ∧ (VisualizerClient.getAllStructures st₁ parsed).2 = st₁
      ∧ (VisualizerClient.getMatrix st₁ parsed).2 = st₁
      ∧ (VisualizerClient.deleteStructure st₁ sname t).2 = st₁
      ∧ (VisualizerClient.isConnected st₁ t).2 = st₁ :=
  fun _ _ _ _ _ _ _ _ _ _ _ _ _ =>
    ⟨rfl, rfl, rfl, rfl, rfl, rfl, rfl, rfl, rfl,
      rfl, rfl, rfl, rfl, rfl, rfl, rfl, rfl, rfl⟩

end CppVisualizer
